import Mathlib

/-!
Shallow embedding of the reliability and orchestration layer of the
agentic-podcast-system repository: the retry policy (`src/utils/retry.js`),
the timeout wrapper (`src/utils/timeout.js`), the circuit breaker
(`src/utils/circuit-breaker.js`), the concurrency-limited batch runner and
plan-and-write stage of the workflow (`src/orchestrator/workflow.js`), and
the podcast planner (`src/synthesis/planner.js`).

Asynchrony is embedded by making each external effect an explicit parameter:
an async operation that is invoked repeatedly becomes a function from the
attempt index to an `Except` outcome; the wall clock (`Date.now()`) becomes
an explicit `now : Nat` argument in milliseconds; a promise race is embedded
by comparing resolution times.  JavaScript error objects are embedded as a
record of the fields this layer reads (`message`, `code`, `status`, and the
`timeout` tag added by the timeout wrapper).
-/

namespace Podcast

/-- A JavaScript error object, restricted to the fields the reliability layer
reads: `message` (always present), optional `code` and `status`, and the
`timeout` field the timeout wrapper attaches.  A JS comparison such as
`error.status >= 500` is `false` when `status` is `undefined`, which the
`Option` match below reproduces. -/
structure JsError where
  message : String
  code : Option String := none
  status : Option Nat := none
  timeoutMs : Option Nat := none
deriving Repr, DecidableEq

/-- Occurrence of `pat` as a contiguous sublist of `l`, by scanning every
suffix. -/
def includesList (pat : List Char) : List Char → Bool
  | [] => pat.isPrefixOf []
  | c :: cs => pat.isPrefixOf (c :: cs) || includesList pat cs

/-- Embedding of `String.prototype.includes(pat)`: the pattern occurs as a
contiguous substring. -/
def includesStr (s pat : String) : Bool :=
  includesList pat.data s.data

/-- From `retryPredicates.isNetworkError` in `src/utils/retry.js`. -/
def isNetworkError (e : JsError) : Bool :=
  e.code == some "ECONNRESET" ||
  e.code == some "ENOTFOUND" ||
  e.code == some "ETIMEDOUT" ||
  includesStr e.message "network" ||
  includesStr e.message "fetch"

/-- From `retryPredicates.isRateLimitError` in `src/utils/retry.js`. -/
def isRateLimitError (e : JsError) : Bool :=
  e.status == some 429 || e.code == some "RATE_LIMIT_EXCEEDED"

/-- From `retryPredicates.isServerError` in `src/utils/retry.js`:
`error.status >= 500 && error.status < 600`, false when `status` is absent. -/
def isServerError (e : JsError) : Bool :=
  match e.status with
  | some s => decide (500 ≤ s) && decide (s < 600)
  | none => false

/-- From `retryPredicates.isTransientError` in `src/utils/retry.js`. -/
def isTransientError (e : JsError) : Bool :=
  isNetworkError e || isRateLimitError e || isServerError e

/-- Loop body of `retry` in `src/utils/retry.js`.  `op k` is the outcome of
the `k`-th (0-indexed) invocation of the operation; `remaining` counts the
loop iterations still allowed (`maxRetries - attempt`); the accumulated
`last` models the `lastError` variable (`none` models the `undefined` thrown
when `maxRetries = 0`).  The returned list records, in order, the delays the
code sleeps between attempts: `min(baseDelay * 2 ^ attempt, maxDelay)`. -/
def retryAux (op : Nat → Except JsError V) (baseDelay maxDelay : Nat) :
    Nat → Nat → Option JsError → Except (Option JsError) V × List Nat
  | _, 0, last => (.error last, [])
  | attempt, r + 1, _ =>
    match op attempt with
    | .ok v => (.ok v, [])
    | .error e =>
      if r = 0 then
        (.error (some e), [])
      else
        let delay := min (baseDelay * 2 ^ attempt) maxDelay
        let rest := retryAux op baseDelay maxDelay (attempt + 1) r (some e)
        (rest.1, delay :: rest.2)

/-- `retry(operation, {maxRetries, baseDelay, maxDelay})` from
`src/utils/retry.js`, returning the surfaced outcome together with the list
of backoff delays slept between attempts. -/
def retry (op : Nat → Except JsError V) (maxRetries baseDelay maxDelay : Nat) :
    Except (Option JsError) V × List Nat :=
  retryAux op baseDelay maxDelay 0 maxRetries none

/-- Loop body of `retryIf` in `src/utils/retry.js`: after each failure the
`shouldRetry` predicate is consulted; a `false` verdict (or the last allowed
attempt) breaks out of the loop and the last error is surfaced. -/
def retryIfAux (op : Nat → Except JsError V) (shouldRetry : JsError → Nat → Bool)
    (baseDelay maxDelay : Nat) :
    Nat → Nat → Option JsError → Except (Option JsError) V × List Nat
  | _, 0, last => (.error last, [])
  | attempt, r + 1, _ =>
    match op attempt with
    | .ok v => (.ok v, [])
    | .error e =>
      if !shouldRetry e attempt || r = 0 then
        (.error (some e), [])
      else
        let delay := min (baseDelay * 2 ^ attempt) maxDelay
        let rest := retryIfAux op shouldRetry baseDelay maxDelay (attempt + 1) r (some e)
        (rest.1, delay :: rest.2)

/-- `retryIf(operation, shouldRetry, {maxRetries, baseDelay, maxDelay})` from
`src/utils/retry.js`. -/
def retryIf (op : Nat → Except JsError V) (shouldRetry : JsError → Nat → Bool)
    (maxRetries baseDelay maxDelay : Nat) :
    Except (Option JsError) V × List Nat :=
  retryIfAux op shouldRetry baseDelay maxDelay 0 maxRetries none

/-- The error constructed by the timer branch of `withTimeout` in
`src/utils/timeout.js`: the message reads "(context) timed out after
(timeoutMs)ms", the code is TIMEOUT, and the timeout field is the budget. -/
def timeoutError (context : String) (timeoutMs : Nat) : JsError :=
  { message := context ++ " timed out after " ++ toString timeoutMs ++ "ms",
    code := some "TIMEOUT",
    timeoutMs := some timeoutMs }

/-- `withTimeout(operation, timeoutMs, context)` from `src/utils/timeout.js`.
The promise race is embedded by resolution times: `opTime` is the instant at
which the operation settles (with outcome `opOutcome`, a value or a
rejection), and the timer fires at `timeoutMs`.  The operation wins the race
exactly when it settles strictly before the timer; otherwise the timeout
error wins and the operation's eventual result is discarded. -/
def withTimeout (opTime : Nat) (opOutcome : Except JsError V)
    (timeoutMs : Nat) (context : String) : Except JsError V :=
  if opTime < timeoutMs then opOutcome else .error (timeoutError context timeoutMs)

/-- `isTimeoutError` from `src/utils/timeout.js`. -/
def isTimeoutError (e : JsError) : Bool :=
  e.code == some "TIMEOUT"

/-- `withTimeoutAndFallback(operation, timeoutMs, fallback, context)` from
`src/utils/timeout.js`: runs `withTimeout` and, when the resulting error has
`code === 'TIMEOUT'`, returns the fallback's value instead; every other
error is rethrown unchanged. -/
def withTimeoutAndFallback (opTime : Nat) (opOutcome : Except JsError V)
    (timeoutMs : Nat) (fallback : V) (context : String) : Except JsError V :=
  match withTimeout opTime opOutcome timeoutMs context with
  | .ok v => .ok v
  | .error e => if isTimeoutError e then .ok fallback else .error e

/-- The `STATES` table of `src/utils/circuit-breaker.js`. -/
inductive BreakerState where
  | CLOSED
  | OPEN
  | HALF_OPEN
deriving Repr, DecidableEq

/-- The mutable fields of the `CircuitBreaker` class in
`src/utils/circuit-breaker.js`, together with its configuration
(`threshold`, and `timeout`, the cooldown in milliseconds).  The
`serviceName` and logger are omitted: the service name is passed to
`execute` where it is observable in the thrown error. -/
structure CircuitBreaker where
  threshold : Nat
  timeout : Nat
  state : BreakerState
  failureCount : Nat
  lastFailureTime : Option Nat
  nextAttemptTime : Nat
  successCount : Nat
deriving Repr, DecidableEq

/-- The `CircuitBreaker` constructor: CLOSED, zero counters,
`nextAttemptTime = Date.now()`. -/
def CircuitBreaker.mk0 (threshold timeout now : Nat) : CircuitBreaker :=
  { threshold := threshold
    timeout := timeout
    state := .CLOSED
    failureCount := 0
    lastFailureTime := none
    nextAttemptTime := now
    successCount := 0 }

/-- `CircuitBreaker.reset` from `src/utils/circuit-breaker.js`. -/
def CircuitBreaker.reset (cb : CircuitBreaker) : CircuitBreaker :=
  { cb with state := .CLOSED, failureCount := 0, successCount := 0, lastFailureTime := none }

/-- `CircuitBreaker.transitionToOpen`: sets state to OPEN and
`nextAttemptTime = Date.now() + this.timeout`. -/
def CircuitBreaker.transitionToOpen (cb : CircuitBreaker) (now : Nat) : CircuitBreaker :=
  { cb with state := .OPEN, nextAttemptTime := now + cb.timeout }

/-- `CircuitBreaker.transitionToHalfOpen`: sets state to HALF_OPEN and
clears the success counter. -/
def CircuitBreaker.transitionToHalfOpen (cb : CircuitBreaker) : CircuitBreaker :=
  { cb with state := .HALF_OPEN, successCount := 0 }

/-- `CircuitBreaker.onSuccess`: bumps the success counter; in HALF_OPEN the
breaker resets to CLOSED; in CLOSED a positive failure count decays by one
(`Math.max(0, failureCount - 1)`, which is truncated subtraction here). -/
def CircuitBreaker.onSuccess (cb : CircuitBreaker) : CircuitBreaker :=
  let cb := { cb with successCount := cb.successCount + 1 }
  if cb.state = .HALF_OPEN then
    cb.reset
  else if cb.state = .CLOSED ∧ 0 < cb.failureCount then
    { cb with failureCount := cb.failureCount - 1 }
  else
    cb

/-- `CircuitBreaker.onFailure`: bumps the failure counter and records the
failure time; a failure in HALF_OPEN reopens the circuit, and otherwise the
circuit opens once `failureCount >= threshold`. -/
def CircuitBreaker.onFailure (cb : CircuitBreaker) (now : Nat) : CircuitBreaker :=
  let cb := { cb with failureCount := cb.failureCount + 1, lastFailureTime := some now }
  if cb.state = .HALF_OPEN then
    cb.transitionToOpen now
  else if cb.threshold ≤ cb.failureCount then
    cb.transitionToOpen now
  else
    cb

/-- The OPEN-state check at the top of `CircuitBreaker.execute`: `none`
means the request is blocked (circuit OPEN and `Date.now() <
nextAttemptTime`); otherwise the breaker in which the operation will be
attempted is returned — unchanged, or moved to HALF_OPEN when the cooldown
of an OPEN circuit has elapsed. -/
def CircuitBreaker.gate (cb : CircuitBreaker) (now : Nat) : Option CircuitBreaker :=
  if cb.state = .OPEN then
    if now < cb.nextAttemptTime then none
    else some cb.transitionToHalfOpen
  else
    some cb

/-- Observable outcome of one `CircuitBreaker.execute` call: a returned
value (from the operation or from the fallback), the `Circuit breaker is
OPEN for (service)` error, or the underlying operation's error rethrown. -/
inductive ExecOutcome (V : Type u) where
  | ok : V → ExecOutcome V
  | circuitOpenError : String → ExecOutcome V
  | opError : JsError → ExecOutcome V
deriving Repr, DecidableEq

/-- `CircuitBreaker.execute(operation, fallback)` from
`src/utils/circuit-breaker.js`.  The single asynchronous invocation of the
underlying operation at this call is embedded by its outcome `opResult`; the
returned `Bool` records whether the underlying operation was actually
invoked.  A supplied fallback is embedded by the value it produces. -/
def CircuitBreaker.execute (cb : CircuitBreaker) (serviceName : String) (now : Nat)
    (opResult : Except JsError V) (fallback : Option V) :
    CircuitBreaker × ExecOutcome V × Bool :=
  match cb.gate now with
  | none =>
    match fallback with
    | some v => (cb, .ok v, false)
    | none => (cb, .circuitOpenError ("Circuit breaker is OPEN for " ++ serviceName), false)
  | some cb1 =>
    match opResult with
    | .ok v => (cb1.onSuccess, .ok v, true)
    | .error e =>
      let cb2 := cb1.onFailure now
      match fallback with
      | some v => if cb2.state = .OPEN then (cb2, .ok v, true) else (cb2, .opError e, true)
      | none => (cb2, .opError e, true)

/-- Iterates `execute` over a sequence of calls whose operations all fail,
each pair giving the call's `Date.now()` and the operation's error, and
returns the final breaker state.  The state evolution of `execute` does not
depend on whether a fallback is supplied, so the iteration fixes
`fallback = none`. -/
def CircuitBreaker.runFailedExecutes (cb : CircuitBreaker) (serviceName : String)
    (calls : List (Nat × JsError)) : CircuitBreaker :=
  calls.foldl
    (fun c te => (c.execute serviceName te.1 (Except.error te.2) (none : Option Unit)).1)
    cb

/-- The batching loop shared by `executeAgentsWithConcurrency` and
`executeDeterministicWithConcurrency` in `src/orchestrator/workflow.js`:
`for (let i = 0; i < items.length; i += L) batch = items.slice(i, i + L)`.
Faithful for `L >= 1` (with `L = 0` the JS loop never advances, so no claim
below instantiates it). -/
def chunks (L : Nat) : List α → List (List α)
  | [] => []
  | x :: xs => (x :: xs.take (L - 1)) :: chunks L (xs.drop (L - 1))
termination_by l => l.length
decreasing_by
  simp only [List.length_drop, List.length_cons]
  omega

/-- The per-channel result record produced by the research stage of
`src/orchestrator/workflow.js` (success payload of `agent.research` /
`deterministicChannelReport`, or the catch-block fallback record).  The
`timestamp` ISO string is omitted; `duration` is carried explicitly. -/
structure AgentResult where
  channelId : String
  channelName : String
  report : String
  duration : Nat
  status : String
  method : String
  errorMessage : Option String
deriving Repr, DecidableEq

/-- `PodcastWorkflow.generateAgentFallback` from
`src/orchestrator/workflow.js`: category-keyed canned fallback text. -/
def generateAgentFallback (channelId : String) : String :=
  if channelId = "tech" then
    "Recent technology developments continue with focus on AI integration, cloud services, and developer tools. The software industry maintains rapid innovation across frameworks and platforms."
  else if channelId = "finance" then
    "Financial markets show mixed performance with ongoing attention to economic indicators and central bank policies. Investment strategies adapt to current market conditions."
  else if channelId = "f1" then
    "Formula 1 continues with competitive racing and strategic battles. Teams focus on performance optimization while championship standings evolve throughout the season."
  else if channelId = "science" then
    "Scientific research progresses across multiple disciplines with developments in medical research, environmental science, and technological innovation."
  else if channelId = "world_news" then
    "Global developments continue with focus on diplomatic efforts, economic progress, and international cooperation on shared challenges."
  else
    "Recent developments in this area continue to evolve with various factors influencing current trends."

/-- The failure record built in the catch block of the per-channel closure
of `PodcastWorkflow.executeDeterministicWithConcurrency`. -/
def deterministicFailureResult (channelId : String) (e : JsError) : AgentResult :=
  { channelId := channelId
    channelName := channelId
    report := generateAgentFallback channelId
    duration := 0
    status := "failed"
    method := "deterministic"
    errorMessage := some e.message }

/-- The per-channel closure of
`PodcastWorkflow.executeDeterministicWithConcurrency`: runs
`deterministicChannelReport` (embedded by its outcome `op channelId`) and
converts a thrown error into the fallback failure record. -/
def runDeterministicItem (op : String → Except JsError AgentResult)
    (channelId : String) : AgentResult :=
  match op channelId with
  | .ok r => r
  | .error e => deterministicFailureResult channelId e

/-- `PodcastWorkflow.executeDeterministicWithConcurrency(channels,
customRequests, concurrencyLimit)`: slices the channel list into batches of
size at most `L`, maps the per-channel closure over each batch
(`Promise.all` returns results in argument order), and appends the batch
results in batch order. -/
def executeDeterministicWithConcurrency (op : String → Except JsError AgentResult)
    (L : Nat) (channels : List String) : List AgentResult :=
  (chunks L channels).foldl
    (fun results batch => results ++ batch.map (runDeterministicItem op)) []

/-- A channel agent as seen by the workflow: its `channelId` and
`channel.name`. -/
structure Agent where
  channelId : String
  channelName : String
deriving Repr, DecidableEq

/-- The failure record built in the catch block of
`PodcastWorkflow.executeAgentWithFallback` (`duration` is the elapsed
`Date.now() - startTime`, passed in explicitly here). -/
def agentFailureResult (a : Agent) (duration : Nat) (e : JsError) : AgentResult :=
  { channelId := a.channelId
    channelName := a.channelName
    report := generateAgentFallback a.channelId
    duration := duration
    status := "failed"
    method := "fallback"
    errorMessage := some e.message }

/-- `PodcastWorkflow.executeAgentWithFallback(agent, customRequests)`:
returns `agent.research`'s result, or on a thrown error the fallback
failure record.  The research call is embedded by its outcome
`research agent`. -/
def executeAgentWithFallback (research : Agent → Except JsError AgentResult)
    (duration : Nat) (a : Agent) : AgentResult :=
  match research a with
  | .ok r => r
  | .error e => agentFailureResult a duration e

/-- `PodcastWorkflow.executeAgentsWithConcurrency(agents, customRequests,
concurrencyLimit)`: same batching loop with `executeAgentWithFallback` as
the per-item handler. -/
def executeAgentsWithConcurrency (research : Agent → Except JsError AgentResult)
    (duration : Nat) (L : Nat) (agents : List Agent) : List AgentResult :=
  (chunks L agents).foldl
    (fun results batch => results ++ batch.map (executeAgentWithFallback research duration)) []

/-- Scheduling events of the batch runner: item `i`'s operation is started
(its promise is created by the `batch.map`) or resolved (observed by the
`await Promise.all`). -/
inductive BatchEvent (ι : Type u) where
  | start : ι → BatchEvent ι
  | resolve : ι → BatchEvent ι
deriving Repr, DecidableEq

/-- Events of a single batch iteration: `batch.map(...)` starts every item
of the group before any is awaited, and `await Promise.all(batchPromises)`
resolves every item of the group before the loop proceeds. -/
def groupEvents (b : List ι) : List (BatchEvent ι) :=
  b.map .start ++ b.map .resolve

/-- The scheduling trace of the whole batching loop: the concatenation of
each group's events, one group after another. -/
def batchTrace (bs : List (List ι)) : List (BatchEvent ι) :=
  bs.flatMap groupEvents

/-- A section of the planner's JSON plan (`src/synthesis/planner.js` JSON
schema). -/
structure PlanSection where
  id : String
  title : String
  goal : String
  approx_words : Nat
  content_refs : List String
deriving Repr, DecidableEq

/-- The planner's JSON plan. -/
structure Plan where
  overview : String
  sections : List PlanSection
deriving Repr, DecidableEq

/-- The hard-coded minimal plan returned by `PodcastPlanner.createPlan` when
both parse attempts fail.  `Math.floor(wordsTarget * 0.15)` and
`Math.floor(wordsTarget * 0.7)` are embedded as exact rational floors
`wordsTarget * 15 / 100` and `wordsTarget * 70 / 100`; IEEE-754 rounding of
the literals 0.15 and 0.7 can differ from the exact floor only on inputs far
larger than any duration in use, and no claim below depends on these word
counts. -/
def minimalPlan (wordsTarget : Nat) : Plan :=
  { overview := "Auto plan"
    sections := [
      { id := "intro", title := "Introduction", goal := "Open the show",
        approx_words := wordsTarget * 15 / 100, content_refs := [] },
      { id := "main", title := "Main Topics", goal := "Summarize key reports",
        approx_words := wordsTarget * 70 / 100, content_refs := [] },
      { id := "closing", title := "Closing", goal := "Wrap up and sign off",
        approx_words := wordsTarget * 15 / 100, content_refs := [] }] }

/-- The parse/retry/fallback control flow of `PodcastPlanner.createPlan` in
`src/synthesis/planner.js`.  The two completion calls are embedded by the
texts they return (`resp`, then `retryResp` for the single retry with the
stricter prompt), and `JSON.parse` composed with reading the schema is
embedded by `parse`, which is `none` exactly on malformed (non-JSON-parsable)
output.  On a double failure the minimal plan is returned together with the
raw transcript joined by the RETRY marker; no error is thrown. -/
def createPlan (parse : String → Option Plan) (wordsTarget : Nat)
    (resp retryResp : String) : Plan × String :=
  match parse resp with
  | some plan => (plan, resp)
  | none =>
    match parse retryResp with
    | some plan => (plan, retryResp)
    | none =>
      (minimalPlan wordsTarget, resp ++ "\n\n--- RETRY ---\n\n" ++ retryResp)

/-- `PodcastWorkflow.planAndWriteScript` from `src/orchestrator/workflow.js`:
obtains a plan via `planPodcast` (which forwards to `createPlan` with
`wordsTarget = duration * 160`), then iteratively writes each planned
section, threading the accumulated script (joined by blank lines) into each
write.  `writeSec` embeds `writeOneSection`, which may throw; any such error
propagates out of the stage, as does any error of the planner itself (the
planner's parse-fallback path throws none). -/
def planAndWriteScript (parse : String → Option Plan)
    (writeSec : Plan → PlanSection → String → Except JsError String)
    (duration : Nat) (resp retryResp : String) : Except JsError (Plan × String) := do
  let pr := createPlan parse (duration * 160) resp retryResp
  let plan := pr.1
  let script ← plan.sections.foldlM
    (fun script sec => do
      let t ← writeSec plan sec script
      pure (if script = "" then t else script ++ "\n\n" ++ t))
    ""
  pure (plan, script)

/-- The terminal outcome `PodcastWorkflow.execute` reports for a run whose
earlier stages completed and whose plan-and-write stage returned `r`: the
workflow's try/catch marks the run failed exactly when the stage threw. -/
def pipelineOutcome (r : Except JsError (Plan × String)) : String :=
  match r with
  | .ok _ => "success"
  | .error _ => "failure"

/-- Modelled from the spec (section 4.2): the default retryability classes
as the spec's sentence enumerates them — network-reset (`ECONNRESET`), DNS
(`ENOTFOUND`), timeout (`ETIMEDOUT`), HTTP 429, and HTTP 5xx.  This
definition exists only to compare the spec's wording against the code's
`isTransientError`; it is not part of the source. -/
def specDefaultRetryable (e : JsError) : Bool :=
  e.code == some "ECONNRESET" ||
  e.code == some "ENOTFOUND" ||
  e.code == some "ETIMEDOUT" ||
  e.status == some 429 ||
  (match e.status with
   | some s => decide (500 ≤ s) && decide (s < 600)
   | none => false)

/-- The retryability classes of the amended claim C8, following the code's
`retryPredicates.isTransientError`: additionally retryable are errors whose
message contains the substring network or fetch, and errors with code
`RATE_LIMIT_EXCEEDED`. -/
def amendedDefaultRetryable (e : JsError) : Bool :=
  e.code == some "ECONNRESET" ||
  e.code == some "ENOTFOUND" ||
  e.code == some "ETIMEDOUT" ||
  includesStr e.message "network" ||
  includesStr e.message "fetch" ||
  e.status == some 429 ||
  e.code == some "RATE_LIMIT_EXCEEDED" ||
  (match e.status with
   | some s => decide (500 ≤ s) && decide (s < 600)
   | none => false)

/-- A concrete successful research result, used by witnesses. -/
def sampleOkResult (c : String) : AgentResult :=
  { channelId := c
    channelName := c
    report := "ok " ++ c
    duration := 7
    status := "success"
    method := "deterministic"
    errorMessage := none }

/-- A concrete per-channel operation whose finance channel throws an HTTP
500 error and whose other channels succeed, used by witnesses. -/
def sampleOp (c : String) : Except JsError AgentResult :=
  if c = "finance" then Except.error { message := "HTTP 500", status := some 500 }
  else Except.ok (sampleOkResult c)

/-- C9: `withTimeout(operation, budgetMs, label)` returns the operation's
outcome unchanged whenever the operation settles strictly before the budget
elapses; when the timer fires first the call fails with the Timeout error
carrying code TIMEOUT, the label and the budget; and
`withTimeoutAndFallback` returns the fallback's value exactly in the
Timeout case while propagating the operation's value, or any
non-Timeout-coded error, unchanged. -/
theorem withTimeout_race_contract (budget opTime : Nat) (out : Except JsError α)
    (label : String) (fb : α) :
    (opTime < budget → withTimeout opTime out budget label = out) ∧
    (budget < opTime →
      withTimeout opTime out budget label = .error (timeoutError label budget) ∧
      (timeoutError label budget).code = some "TIMEOUT" ∧
      (timeoutError label budget).timeoutMs = some budget ∧
      (timeoutError label budget).message =
        label ++ " timed out after " ++ toString budget ++ "ms" ∧
      withTimeoutAndFallback opTime out budget fb label = .ok fb) ∧
    (∀ v, opTime < budget → out = .ok v →
      withTimeoutAndFallback opTime out budget fb label = .ok v) ∧
    (∀ e, opTime < budget → out = .error e → isTimeoutError e = false →
      withTimeoutAndFallback opTime out budget fb label = .error e) := by
  refine ⟨fun h => ?_, fun h => ?_, fun v h hv => ?_, fun e h he hte => ?_⟩
  · simp [withTimeout, h]
  · have hnot : ¬ opTime < budget := by omega
    refine ⟨by simp [withTimeout, hnot], rfl, rfl, rfl, ?_⟩
    simp [withTimeoutAndFallback, withTimeout, hnot, isTimeoutError, timeoutError]
  · simp [withTimeoutAndFallback, withTimeout, h, hv]
  · simp [withTimeoutAndFallback, withTimeout, h, he, hte]

/-- Witness for C9 at budget 100: an operation settling at 50 (half the
budget) has its result returned; one settling at 200 (twice the budget)
yields the Timeout error, routed to the fallback by
`withTimeoutAndFallback`. -/
theorem withTimeout_race_contract_witness :
    withTimeout 50 (Except.ok (7 : Nat)) 100 "op" = Except.ok 7 ∧
    withTimeout 200 (Except.ok (7 : Nat)) 100 "op" = Except.error (timeoutError "op" 100) ∧
    withTimeoutAndFallback 200 (Except.ok (7 : Nat)) 100 99 "op" = Except.ok 99 ∧
    withTimeoutAndFallback 50
      (Except.error { message := "HTTP 404" , status := some 404 } : Except JsError Nat)
      100 99 "op" = Except.error { message := "HTTP 404", status := some 404 } :=
  ⟨(withTimeout_race_contract 100 50 (Except.ok 7) "op" 99).1 (by omega),
   ((withTimeout_race_contract 100 200 (Except.ok 7) "op" 99).2.1 (by omega)).1,
   ((withTimeout_race_contract 100 200 (Except.ok 7) "op" 99).2.1 (by omega)).2.2.2.2,
   (withTimeout_race_contract 100 50 _ "op" 99).2.2.2 _ (by omega) rfl (by decide)⟩

/-- On an operation that fails at every attempt, the retry loop starting at
attempt `a` with `r >= 1` iterations left surfaces the error of the last
attempt and sleeps `min(baseDelay * 2 ^ attempt, maxDelay)` between
consecutive attempts. -/
theorem retryAux_allFail {V : Type} (op : Nat → Except JsError V) (errf : Nat → JsError)
    (hfail : ∀ k, op k = .error (errf k)) (b M : Nat) :
    ∀ (r : Nat) (a : Nat) (last : Option JsError), 1 ≤ r →
      retryAux op b M a r last =
        (.error (some (errf (a + (r - 1)))),
         (List.range (r - 1)).map fun i => min (b * 2 ^ (a + i)) M) := by
  intro r
  induction r with
  | zero => intro a last h; omega
  | succ r ih =>
    intro a last _
    cases r with
    | zero => simp [retryAux, hfail a]
    | succ r' =>
      have hne : ¬ (r' + 1 = 0) := by omega
      rw [retryAux, hfail a]
      simp only [hne, if_false]
      rw [ih (a + 1) (some (errf a)) (by omega)]
      have ha : a + 1 + (r' + 1 - 1) = a + (r' + 1 + 1 - 1) := by omega
      rw [ha]
      refine Prod.ext rfl ?_
      show min (b * 2 ^ a) M ::
          ((List.range (r' + 1 - 1)).map fun i => min (b * 2 ^ (a + 1 + i)) M) =
        (List.range (r' + 1 + 1 - 1)).map fun i => min (b * 2 ^ (a + i)) M
      have h1 : r' + 1 + 1 - 1 = r' + 1 := by omega
      have h2 : r' + 1 - 1 = r' := by omega
      rw [h1, h2, List.range_succ_eq_map, List.map_cons, List.map_map]
      refine congrArg₂ _ (by simp) ?_
      refine List.map_congr_left fun i _ => ?_
      have : a + 1 + i = a + Nat.succ i := by omega
      simp [Function.comp, this]

/-- C7: with 4 allowed attempts and base delay 1000 on an operation failing
every attempt, `retry` sleeps exactly the 3 backoff delays 1000, 2000, 4000
(the default `maxDelay` being 10000) and surfaces the final attempt's error;
in general the wait before attempt k (1-indexed, k >= 2) is
`min(baseDelay * 2 ^ (k - 2), maxDelay)`. -/
theorem retry_backoff_schedule {V : Type} (op : Nat → Except JsError V)
    (errf : Nat → JsError) (hfail : ∀ k, op k = .error (errf k)) :
    retry op 4 1000 10000 = (.error (some (errf 3)), [1000, 2000, 4000]) ∧
    (∀ n b M, 1 ≤ n →
      retry op n b M =
        (.error (some (errf (n - 1))),
         (List.range (n - 1)).map fun i => min (b * 2 ^ i) M)) ∧
    (∀ n b M k, 2 ≤ k → k ≤ n →
      ((List.range (n - 1)).map fun i => min (b * 2 ^ i) M)[k - 2]? =
        some (min (b * 2 ^ (k - 2)) M)) := by
  have hgen : ∀ n b M, 1 ≤ n →
      retry op n b M =
        (.error (some (errf (n - 1))),
         (List.range (n - 1)).map fun i => min (b * 2 ^ i) M) := by
    intro n b M hn
    rw [retry, retryAux_allFail op errf hfail b M n 0 none hn]
    simp
  refine ⟨?_, hgen, ?_⟩
  · rw [hgen 4 1000 10000 (by omega)]
    have hd : ((List.range (4 - 1)).map fun i => min (1000 * 2 ^ i) 10000) =
        [1000, 2000, 4000] := by decide
    rw [hd]
  · intro n b M k hk hkn
    rw [List.getElem?_map, List.getElem?_range (by omega)]
    rfl

/-- Witness for C7: a concretely failing operation retried with 4 attempts,
base delay 1000 and max delay 10000 waits 1000, 2000, 4000 ms and surfaces
the last error. -/
theorem retry_backoff_schedule_witness :
    retry (fun _ => (Except.error { message := "boom" } : Except JsError Nat))
        4 1000 10000 =
      (.error (some { message := "boom" }), [1000, 2000, 4000]) :=
  (retry_backoff_schedule (fun _ => (Except.error { message := "boom" } : Except JsError Nat))
    (fun _ => { message := "boom" }) (fun _ => rfl)).1

/-- Counterexample to C8 as stated: the error whose message is "prefetch
disabled" (no code, no status) is none of the network-reset/DNS/timeout,
HTTP 429 or HTTP 5xx classes, yet the code's default transient-error
predicate classifies it retryable (its message contains the substring
fetch), so `retryIf` driven by that predicate retries it — one backoff wait
occurs — instead of aborting immediately. -/
theorem default_retryable_counterexample :
    isTransientError { message := "prefetch disabled" } = true ∧
    specDefaultRetryable { message := "prefetch disabled" } = false ∧
    retryIf (fun _ => (Except.error { message := "prefetch disabled" } : Except JsError Nat))
        (fun e _ => isTransientError e) 2 1000 3000 =
      (.error (some { message := "prefetch disabled" }), [1000]) := by
  refine ⟨by decide, by decide, by rfl⟩

/-- C8 (amended): when an attempt of `retryIf` fails with an error the
retryability predicate rejects, retrying aborts immediately — no wait, no
further attempt — and that error is surfaced, regardless of how many
attempts remain; and the default transient-error predicate classifies
retryable exactly the errors with code ECONNRESET, ENOTFOUND or ETIMEDOUT,
a message containing the substring network or fetch, HTTP status 429, code
RATE_LIMIT_EXCEEDED, or an HTTP 5xx status. -/
theorem retryIf_aborts_on_nonretryable {V : Type} (op : Nat → Except JsError V)
    (shouldRetry : JsError → Nat → Bool) (b M : Nat) :
    (∀ (a r : Nat) (last : Option JsError) (e : JsError),
      op a = .error e → shouldRetry e a = false →
      retryIfAux op shouldRetry b M a (r + 1) last = (.error (some e), [])) ∧
    (∀ (n : Nat) (e : JsError), 1 ≤ n → op 0 = .error e → shouldRetry e 0 = false →
      retryIf op shouldRetry n b M = (.error (some e), [])) ∧
    (∀ e, isTransientError e = amendedDefaultRetryable e) := by
  have habort : ∀ (a r : Nat) (last : Option JsError) (e : JsError),
      op a = .error e → shouldRetry e a = false →
      retryIfAux op shouldRetry b M a (r + 1) last = (.error (some e), []) := by
    intro a r last e hop hsr
    rw [retryIfAux, hop]
    simp [hsr]
  refine ⟨habort, ?_, ?_⟩
  · intro n e hn hop hsr
    obtain ⟨r, rfl⟩ : ∃ r, n = r + 1 := ⟨n - 1, by omega⟩
    exact habort 0 r none e hop hsr
  · intro e
    simp only [isTransientError, isNetworkError, isRateLimitError, isServerError,
      amendedDefaultRetryable, Bool.or_assoc]

/-- Witness for the amended C8: an HTTP 404 error is non-retryable under the
default predicate, and `retryIf` with 3 allowed attempts surfaces it after
the first attempt with no waits. -/
theorem retryIf_aborts_witness :
    retryIf (fun _ => (Except.error { message := "HTTP 404", status := some 404 } : Except JsError Nat))
        (fun e _ => isTransientError e) 3 1000 3000 =
      (.error (some { message := "HTTP 404", status := some 404 }), []) :=
  (retryIf_aborts_on_nonretryable
      (fun _ => (Except.error { message := "HTTP 404", status := some 404 } : Except JsError Nat))
      (fun e _ => isTransientError e) 1000 3000).2.1 3 _ (by omega) rfl (by decide)

/-- A failed execution on a CLOSED breaker strictly below threshold only
bumps the failure counter and records the failure time. -/
theorem execute_closed_below_threshold (cb : CircuitBreaker) (s : String) (t : Nat)
    (e : JsError) (hst : cb.state = .CLOSED) (hlt : cb.failureCount + 1 < cb.threshold) :
    (cb.execute s t (Except.error e) (none : Option Unit)).1 =
      { cb with failureCount := cb.failureCount + 1, lastFailureTime := some t } := by
  have hth : ¬ cb.threshold ≤ cb.failureCount + 1 := by omega
  simp [CircuitBreaker.execute, CircuitBreaker.gate, hst, CircuitBreaker.onFailure, hth]

/-- A failed execution on a CLOSED breaker whose counter reaches the
threshold opens the circuit with a fresh cooldown window. -/
theorem execute_closed_reaching_threshold (cb : CircuitBreaker) (s : String) (t : Nat)
    (e : JsError) (hst : cb.state = .CLOSED) (hth : cb.threshold ≤ cb.failureCount + 1) :
    (cb.execute s t (Except.error e) (none : Option Unit)).1 =
      { cb with
        state := .OPEN
        failureCount := cb.failureCount + 1
        lastFailureTime := some t
        nextAttemptTime := t + cb.timeout } := by
  simp [CircuitBreaker.execute, CircuitBreaker.gate, hst, CircuitBreaker.onFailure, hth,
    CircuitBreaker.transitionToOpen]

/-- As long as the accumulated failures stay strictly below the threshold, a
run of failed executions keeps the breaker CLOSED, adds one failure per
call, and leaves the configuration and success counter untouched. -/
theorem runFailedExecutes_stays_closed (s : String) :
    ∀ (calls : List (Nat × JsError)) (cb : CircuitBreaker),
      cb.state = .CLOSED → cb.failureCount + calls.length < cb.threshold →
      (cb.runFailedExecutes s calls).state = .CLOSED ∧
      (cb.runFailedExecutes s calls).failureCount = cb.failureCount + calls.length ∧
      (cb.runFailedExecutes s calls).threshold = cb.threshold ∧
      (cb.runFailedExecutes s calls).timeout = cb.timeout ∧
      (cb.runFailedExecutes s calls).successCount = cb.successCount := by
  intro calls
  induction calls with
  | nil =>
    intro cb h1 _
    simp [CircuitBreaker.runFailedExecutes]
    exact h1
  | cons c rest ih =>
    intro cb h1 h2
    have hstep := execute_closed_below_threshold cb s c.1 c.2 h1 (by simp at h2; omega)
    have hunf : cb.runFailedExecutes s (c :: rest) =
        ((cb.execute s c.1 (Except.error c.2) (none : Option Unit)).1).runFailedExecutes s rest := by
      simp [CircuitBreaker.runFailedExecutes]
    rw [hunf, hstep]
    obtain ⟨a1, a2, a3, a4, a5⟩ :=
      ih { cb with failureCount := cb.failureCount + 1, lastFailureTime := some c.1 }
        (by simpa using h1) (by simp at h2 ⊢; omega)
    refine ⟨a1, ?_, a3, a4, a5⟩
    simp at a2 ⊢
    omega


/-- C2: starting from a fresh breaker (CLOSED, zero failures) with threshold
`N >= 1`, after exactly `N` consecutive failed executions (at arbitrary call
times, the last at `tN`) the breaker is OPEN with `N` recorded failures and
cooldown window ending at `tN + C`; the very next `execute` call made
strictly before that instant does not invoke the underlying operation — it
returns the fallback's value when a fallback is supplied and fails with the
circuit-open error otherwise, leaving the breaker unchanged. -/
theorem breaker_opens_after_threshold_failures (α : Type)
    (N C t0 tN t : Nat) (s : String) (calls : List (Nat × JsError)) (eN : JsError)
    (hN : 1 ≤ N) (hlen : calls.length + 1 = N) (ht : t < tN + C) :
    ((CircuitBreaker.mk0 N C t0).runFailedExecutes s (calls ++ [(tN, eN)])).state = .OPEN ∧
    ((CircuitBreaker.mk0 N C t0).runFailedExecutes s (calls ++ [(tN, eN)])).failureCount = N ∧
    ((CircuitBreaker.mk0 N C t0).runFailedExecutes s (calls ++ [(tN, eN)])).nextAttemptTime
      = tN + C ∧
    (∀ (opRes : Except JsError α) (v : α),
      ((CircuitBreaker.mk0 N C t0).runFailedExecutes s (calls ++ [(tN, eN)])).execute
          s t opRes (some v) =
        ((CircuitBreaker.mk0 N C t0).runFailedExecutes s (calls ++ [(tN, eN)]),
         .ok v, false)) ∧
    (∀ opRes : Except JsError α,
      ((CircuitBreaker.mk0 N C t0).runFailedExecutes s (calls ++ [(tN, eN)])).execute
          s t opRes (none : Option α) =
        ((CircuitBreaker.mk0 N C t0).runFailedExecutes s (calls ++ [(tN, eN)]),
         .circuitOpenError ("Circuit breaker is OPEN for " ++ s), false)) := by
  obtain ⟨h1, h2, h3, h4, h5⟩ :=
    runFailedExecutes_stays_closed s calls (CircuitBreaker.mk0 N C t0) rfl
      (by simp [CircuitBreaker.mk0]; omega)
  have hunf : (CircuitBreaker.mk0 N C t0).runFailedExecutes s (calls ++ [(tN, eN)]) =
      (((CircuitBreaker.mk0 N C t0).runFailedExecutes s calls).execute
        s tN (Except.error eN) (none : Option Unit)).1 := by
    simp [CircuitBreaker.runFailedExecutes, List.foldl_append]
  have hmk : (CircuitBreaker.mk0 N C t0).failureCount = 0 := rfl
  have hmkth : (CircuitBreaker.mk0 N C t0).threshold = N := rfl
  have hmkC : (CircuitBreaker.mk0 N C t0).timeout = C := rfl
  have hstep := execute_closed_reaching_threshold
    ((CircuitBreaker.mk0 N C t0).runFailedExecutes s calls) s tN eN h1 (by omega)
  rw [hunf, hstep]
  refine ⟨rfl, by simp; omega, by simp; omega, ?_, ?_⟩
  · intro opRes v
    have hlt : t < tN +
        ((CircuitBreaker.mk0 N C t0).runFailedExecutes s calls).timeout := by omega
    simp [CircuitBreaker.execute, CircuitBreaker.gate, hlt]
  · intro opRes
    have hlt : t < tN +
        ((CircuitBreaker.mk0 N C t0).runFailedExecutes s calls).timeout := by omega
    simp [CircuitBreaker.execute, CircuitBreaker.gate, hlt]

/-- Witness for C2 with threshold 2 and cooldown 10: two failed calls at
times 1 and 2 open the breaker; a call at time 5 (before 2 + 10) is blocked,
returning the fallback value 42 without invoking the operation. -/
theorem breaker_opens_witness :
    ((CircuitBreaker.mk0 2 10 0).runFailedExecutes "svc"
        ([(1, { message := "a" })] ++ [(2, { message := "b" })])).state = BreakerState.OPEN ∧
    ((CircuitBreaker.mk0 2 10 0).runFailedExecutes "svc"
        ([(1, { message := "a" })] ++ [(2, { message := "b" })])).execute
        "svc" 5 (Except.ok (7 : Nat)) (some 42) =
      ((CircuitBreaker.mk0 2 10 0).runFailedExecutes "svc"
        ([(1, { message := "a" })] ++ [(2, { message := "b" })]),
       .ok 42, false) :=
  ⟨(breaker_opens_after_threshold_failures Nat 2 10 0 2 5 "svc"
      [(1, { message := "a" })] { message := "b" } (by omega) (by decide) (by omega)).1,
   (breaker_opens_after_threshold_failures Nat 2 10 0 2 5 "svc"
      [(1, { message := "a" })] { message := "b" } (by omega) (by decide) (by omega)).2.2.2.1
     (Except.ok 7) 42⟩

/-- C5: a breaker that entered OPEN at time `T` with cooldown
`C = cb.timeout` (so `nextAttemptTime = T + C`) blocks every `execute` call
made strictly before `T + C` without invoking the underlying operation and
without changing state, while a call at `T + C` or later passes the gate by
transitioning to HALF_OPEN and does attempt the underlying operation as the
probe. -/
theorem open_breaker_blocks_until_cooldown (α : Type) (cb : CircuitBreaker)
    (T t : Nat) (s : String)
    (hst : cb.state = .OPEN) (hnext : cb.nextAttemptTime = T + cb.timeout) :
    (t < T + cb.timeout →
      cb.gate t = none ∧
      ∀ (opRes : Except JsError α) (fb : Option α),
        (cb.execute s t opRes fb).2.2 = false ∧ (cb.execute s t opRes fb).1 = cb) ∧
    (T + cb.timeout ≤ t →
      cb.gate t = some cb.transitionToHalfOpen ∧
      cb.transitionToHalfOpen.state = .HALF_OPEN ∧
      ∀ (opRes : Except JsError α) (fb : Option α),
        (cb.execute s t opRes fb).2.2 = true) := by
  constructor
  · intro hlt
    have hg : cb.gate t = none := by
      simp [CircuitBreaker.gate, hst, hnext, hlt]
    refine ⟨hg, fun opRes fb => ?_⟩
    cases fb with
    | none => simp [CircuitBreaker.execute, hg]
    | some v => simp [CircuitBreaker.execute, hg]
  · intro hge
    have hnlt : ¬ t < cb.nextAttemptTime := by omega
    have hg : cb.gate t = some cb.transitionToHalfOpen := by
      simp [CircuitBreaker.gate, hst, hnlt]
    refine ⟨hg, rfl, fun opRes fb => ?_⟩
    cases opRes with
    | ok v => simp [CircuitBreaker.execute, hg]
    | error e =>
      cases fb with
      | none => simp [CircuitBreaker.execute, hg]
      | some v =>
        simp only [CircuitBreaker.execute, hg]
        by_cases hs2 : (cb.transitionToHalfOpen.onFailure t).state = .OPEN <;> simp [hs2]

/-- Witness for C5: a breaker opened at time 5 with cooldown 10 blocks at
time 14 and probes at time 15. -/
theorem open_breaker_blocks_witness :
    ({ threshold := 1, timeout := 10, state := .OPEN, failureCount := 1,
       lastFailureTime := some 5, nextAttemptTime := 15, successCount := 0
       : CircuitBreaker }).gate 14 = none ∧
    ({ threshold := 1, timeout := 10, state := .OPEN, failureCount := 1,
       lastFailureTime := some 5, nextAttemptTime := 15, successCount := 0
       : CircuitBreaker }).gate 15 =
      some ({ threshold := 1, timeout := 10, state := .OPEN, failureCount := 1,
              lastFailureTime := some 5, nextAttemptTime := 15, successCount := 0
              : CircuitBreaker }).transitionToHalfOpen ∧
    (({ threshold := 1, timeout := 10, state := .OPEN, failureCount := 1,
        lastFailureTime := some 5, nextAttemptTime := 15, successCount := 0
        : CircuitBreaker }).execute "svc" 15 (Except.ok (3 : Nat)) none).2.2 = true :=
  ⟨((open_breaker_blocks_until_cooldown Nat _ 5 14 "svc" rfl rfl).1 (by decide)).1,
   ((open_breaker_blocks_until_cooldown Nat _ 5 15 "svc" rfl rfl).2 (by decide)).1,
   ((open_breaker_blocks_until_cooldown Nat _ 5 15 "svc" rfl rfl).2 (by decide)).2.2
     (Except.ok 3) none⟩

/-- C6: an `execute` call on a HALF_OPEN breaker whose probe succeeds
returns the probe's value and closes the circuit with the failure count
reset to 0; a probe that fails reopens the circuit with `nextAttemptTime`
freshly recomputed as the call time plus the cooldown. -/
theorem half_open_probe_transitions (α : Type) (cb : CircuitBreaker)
    (s : String) (now : Nat) (v : α) (fb : Option α) (e : JsError)
    (hst : cb.state = .HALF_OPEN) :
    ((cb.execute s now (Except.ok v) fb).1.state = .CLOSED ∧
     (cb.execute s now (Except.ok v) fb).1.failureCount = 0 ∧
     (cb.execute s now (Except.ok v) fb).2.1 = .ok v) ∧
    ((cb.execute s now (Except.error e) (none : Option α)).1.state = .OPEN ∧
     (cb.execute s now (Except.error e) (none : Option α)).1.nextAttemptTime
       = now + cb.timeout) := by
  have hg : cb.gate now = some cb := by
    simp [CircuitBreaker.gate, hst]
  constructor
  · simp [CircuitBreaker.execute, hg, CircuitBreaker.onSuccess, hst,
      CircuitBreaker.reset]
  · simp [CircuitBreaker.execute, hg, CircuitBreaker.onFailure, hst,
      CircuitBreaker.transitionToOpen]

/-- Witness for C6 on a concrete HALF_OPEN breaker at time 20 with cooldown
10: success closes with zero failures, failure reopens until 30. -/
theorem half_open_probe_witness :
    ((({ threshold := 2, timeout := 10, state := .HALF_OPEN, failureCount := 2,
         lastFailureTime := some 5, nextAttemptTime := 15, successCount := 0
         : CircuitBreaker }).execute "svc" 20 (Except.ok (3 : Nat)) none).1.state
       = BreakerState.CLOSED ∧
     (({ threshold := 2, timeout := 10, state := .HALF_OPEN, failureCount := 2,
         lastFailureTime := some 5, nextAttemptTime := 15, successCount := 0
         : CircuitBreaker }).execute "svc" 20 (Except.ok (3 : Nat)) none).1.failureCount
       = 0) ∧
    ((({ threshold := 2, timeout := 10, state := .HALF_OPEN, failureCount := 2,
         lastFailureTime := some 5, nextAttemptTime := 15, successCount := 0
         : CircuitBreaker }).execute "svc" 20
         (Except.error { message := "down" }) (none : Option Nat)).1.state
       = BreakerState.OPEN ∧
     (({ threshold := 2, timeout := 10, state := .HALF_OPEN, failureCount := 2,
         lastFailureTime := some 5, nextAttemptTime := 15, successCount := 0
         : CircuitBreaker }).execute "svc" 20
         (Except.error { message := "down" }) (none : Option Nat)).1.nextAttemptTime
       = 30) :=
  ⟨⟨(half_open_probe_transitions Nat _ "svc" 20 3 none { message := "down" } rfl).1.1,
    (half_open_probe_transitions Nat _ "svc" 20 3 none { message := "down" } rfl).1.2.1⟩,
   ⟨(half_open_probe_transitions Nat _ "svc" 20 3 none { message := "down" } rfl).2.1,
    (half_open_probe_transitions Nat _ "svc" 20 3 none { message := "down" } rfl).2.2⟩⟩

/-- C10: when a fallback is supplied, the breaker's gate permits the
attempt, and the operation's failure is one that opens the circuit (the
attempt ran in HALF_OPEN, or the failure count reaches the threshold),
`execute` returns the fallback's value — the caller observes success on the
very call whose failure opened the circuit. -/
theorem fallback_on_circuit_opening_failure (α : Type) (cb cb1 : CircuitBreaker)
    (s : String) (now : Nat) (e : JsError) (v : α)
    (hg : cb.gate now = some cb1)
    (hopen : cb1.state = .HALF_OPEN ∨ cb1.threshold ≤ cb1.failureCount + 1) :
    (cb1.onFailure now).state = .OPEN ∧
    cb.execute s now (Except.error e) (some v) = (cb1.onFailure now, .ok v, true) := by
  have hs2 : (cb1.onFailure now).state = .OPEN := by
    rcases hopen with h | h
    · simp [CircuitBreaker.onFailure, h, CircuitBreaker.transitionToOpen]
    · by_cases hh : cb1.state = .HALF_OPEN <;>
        simp [CircuitBreaker.onFailure, hh, h, CircuitBreaker.transitionToOpen]
  refine ⟨hs2, ?_⟩
  simp [CircuitBreaker.execute, hg, hs2]

/-- Witness for C10: a fresh breaker with threshold 1 and a fallback
producing 42 — the first failed call opens the circuit and `execute`
returns 42 rather than the operation's error. -/
theorem fallback_on_opening_witness :
    (CircuitBreaker.mk0 1 10 0).execute "svc" 3
        (Except.error { message := "down" }) (some (42 : Nat)) =
      ((CircuitBreaker.mk0 1 10 0).onFailure 3, .ok 42, true) :=
  (fallback_on_circuit_opening_failure Nat (CircuitBreaker.mk0 1 10 0)
    (CircuitBreaker.mk0 1 10 0) "svc" 3 { message := "down" } 42 rfl
    (Or.inr (by decide))).2

/-- Accumulating map-append fold, as the batching loop performs it. -/
theorem foldl_append_map (f : α → β) :
    ∀ (bs : List (List α)) (acc : List β),
      bs.foldl (fun results batch => results ++ batch.map f) acc
        = acc ++ bs.flatten.map f := by
  intro bs
  induction bs with
  | nil => intro acc; simp
  | cons b rest ih => intro acc; simp [ih]

/-- The slices produced by the batching loop reassemble to the input list. -/
theorem chunks_flatten (L : Nat) : ∀ xs : List α, (chunks L xs).flatten = xs := by
  have key : ∀ (n : Nat) (xs : List α), xs.length ≤ n → (chunks L xs).flatten = xs := by
    intro n
    induction n with
    | zero =>
      intro xs h
      have : xs = [] := List.eq_nil_of_length_eq_zero (by omega)
      subst this
      simp [chunks]
    | succ n ih =>
      intro xs h
      cases xs with
      | nil => simp [chunks]
      | cons x rest =>
        rw [chunks]
        simp only [List.flatten_cons]
        rw [ih (rest.drop (L - 1)) (by simp at h ⊢; omega)]
        simp [List.take_append_drop]
  exact fun xs => key xs.length xs le_rfl

/-- Every slice produced by the batching loop has size at most `L`. -/
theorem chunks_size_le (L : Nat) (hL : 1 ≤ L) :
    ∀ xs : List α, ∀ c ∈ chunks L xs, c.length ≤ L := by
  have key : ∀ (n : Nat) (xs : List α), xs.length ≤ n →
      ∀ c ∈ chunks L xs, c.length ≤ L := by
    intro n
    induction n with
    | zero =>
      intro xs h c hc
      have : xs = [] := List.eq_nil_of_length_eq_zero (by omega)
      subst this
      simp [chunks] at hc
    | succ n ih =>
      intro xs h c hc
      cases xs with
      | nil => simp [chunks] at hc
      | cons x rest =>
        rw [chunks] at hc
        rcases List.mem_cons.mp hc with hhead | htail
        · subst hhead
          simp only [List.length_cons, List.length_take]
          omega
        · exact ih (rest.drop (L - 1)) (by simp at h ⊢; omega) c htail
  exact fun xs => key xs.length xs le_rfl

/-- The deterministic batch runner returns, in input order, exactly the
per-item handler's result on each channel. -/
theorem executeDeterministic_eq_map (op : String → Except JsError AgentResult)
    (L : Nat) (channels : List String) :
    executeDeterministicWithConcurrency op L channels
      = channels.map (runDeterministicItem op) := by
  rw [executeDeterministicWithConcurrency, foldl_append_map, chunks_flatten]
  simp

/-- The agent batch runner returns, in input order, exactly the per-agent
handler's result on each agent. -/
theorem executeAgents_eq_map (research : Agent → Except JsError AgentResult)
    (duration L : Nat) (agents : List Agent) :
    executeAgentsWithConcurrency research duration L agents
      = agents.map (executeAgentWithFallback research duration) := by
  rw [executeAgentsWithConcurrency, foldl_append_map, chunks_flatten]
  simp

/-- In the concatenation of per-group blocks, an element of an earlier
group's block occurs before an element of a later group's block. -/
theorem pair_sublist_flatMap (f : α → List β) :
    ∀ (bs : List α) (m n : Nat) (hm : m < bs.length) (hn : n < bs.length),
      m < n → ∀ a b, a ∈ f (bs.get ⟨m, hm⟩) → b ∈ f (bs.get ⟨n, hn⟩) →
      List.Sublist [a, b] (bs.flatMap f) := by
  intro bs
  induction bs with
  | nil => intro m n hm; simp at hm
  | cons c rest ih =>
    intro m n hm hn hmn a b ha hb
    rw [List.flatMap_cons]
    cases m with
    | zero =>
      cases n with
      | zero => omega
      | succ n' =>
        have hb' : b ∈ rest.flatMap f :=
          List.mem_flatMap_of_mem (List.get_mem rest n' (by simpa using hn)) hb
        have h1 : List.Sublist [a] (f c) := List.singleton_sublist.mpr ha
        have h2 : List.Sublist [b] (rest.flatMap f) := List.singleton_sublist.mpr hb'
        exact h1.append h2
    | succ m' =>
      cases n with
      | zero => omega
      | succ n' =>
        have h := ih m' n' (by simpa using hm) (by simpa using hn) (by omega) a b ha hb
        exact h.trans (List.sublist_append_right (f c) (rest.flatMap f))

/-- A start event belongs to a group's block exactly when the item belongs
to the group. -/
theorem mem_groupEvents_start {b : List ι} {i : ι} :
    BatchEvent.start i ∈ groupEvents b ↔ i ∈ b := by
  simp [groupEvents]

/-- A resolve event belongs to a group's block exactly when the item
belongs to the group. -/
theorem mem_groupEvents_resolve {b : List ι} {i : ι} :
    BatchEvent.resolve i ∈ groupEvents b ↔ i ∈ b := by
  simp [groupEvents]

/-- A group of pairwise-distinct items yields a duplicate-free event
block. -/
theorem groupEvents_nodup {b : List ι} (hb : b.Nodup) : (groupEvents b).Nodup := by
  have hinj1 : Function.Injective (BatchEvent.start : ι → BatchEvent ι) := by
    intro x y h
    injection h
  have hinj2 : Function.Injective (BatchEvent.resolve : ι → BatchEvent ι) := by
    intro x y h
    injection h
  rw [groupEvents, List.nodup_append]
  refine ⟨hb.map hinj1, hb.map hinj2, ?_⟩
  intro e he1 he2
  rcases List.mem_map.mp he1 with ⟨x, _, rfl⟩
  rcases List.mem_map.mp he2 with ⟨y, _, hxy⟩
  exact BatchEvent.noConfusion hxy

/-- The full scheduling trace of pairwise-disjoint, duplicate-free groups is
duplicate-free: every item is started once and resolved once. -/
theorem batchTrace_nodup : ∀ bs : List (List ι), bs.flatten.Nodup →
    (batchTrace bs).Nodup := by
  intro bs
  induction bs with
  | nil => intro _; simp [batchTrace]
  | cons b rest ih =>
    intro h
    rw [List.flatten_cons, List.nodup_append] at h
    obtain ⟨hb, hrest, hdisj⟩ := h
    rw [batchTrace, List.flatMap_cons, List.nodup_append]
    refine ⟨groupEvents_nodup hb, ih hrest, ?_⟩
    intro e he1 he2
    rcases List.mem_flatMap.mp he2 with ⟨b', hb', he2'⟩
    have hflat : ∀ j : ι, j ∈ b' → j ∈ rest.flatten := by
      intro j hj
      exact List.mem_flatten.mpr ⟨b', hb', hj⟩
    cases e with
    | start i =>
      exact hdisj (mem_groupEvents_start.mp he1) (hflat i (mem_groupEvents_start.mp he2'))
    | resolve i =>
      exact hdisj (mem_groupEvents_resolve.mp he1) (hflat i (mem_groupEvents_resolve.mp he2'))

/-- C4: for every work list and concurrency limit `L >= 1` the batch runner
partitions the input into consecutive groups of size at most `L` that
reassemble to the input (sizes 2, 2, 1 for 5 items at limit 2), returns
exactly one result per input item in input order (for both the agent and
the deterministic runner — `Promise.all` preserves argument order, so
completion order is immaterial), and its scheduling trace is duplicate-free
on distinct items with every resolve event of an earlier group occurring
before every start event of a later group. -/
theorem runBatches_groups_and_order (L : Nat) (hL : 1 ≤ L)
    (channels : List String) (op : String → Except JsError AgentResult) :
    ((chunks L channels).flatten = channels) ∧
    (∀ c ∈ chunks L channels, c.length ≤ L) ∧
    ((chunks 2 (List.range 5)).map List.length = [2, 2, 1]) ∧
    (executeDeterministicWithConcurrency op L channels
      = channels.map (runDeterministicItem op)) ∧
    ((executeDeterministicWithConcurrency op L channels).length = channels.length) ∧
    (∀ (research : Agent → Except JsError AgentResult) (duration : Nat)
        (agents : List Agent),
      executeAgentsWithConcurrency research duration L agents
        = agents.map (executeAgentWithFallback research duration)) ∧
    (channels.Nodup → (batchTrace (chunks L channels)).Nodup) ∧
    (∀ (m n : Nat) (hm : m < (chunks L channels).length)
        (hn : n < (chunks L channels).length), m < n →
      ∀ i j, i ∈ (chunks L channels).get ⟨m, hm⟩ → j ∈ (chunks L channels).get ⟨n, hn⟩ →
      List.Sublist [BatchEvent.resolve i, BatchEvent.start j]
        (batchTrace (chunks L channels))) := by
  refine ⟨chunks_flatten L channels, chunks_size_le L hL channels, ?_,
    executeDeterministic_eq_map op L channels, ?_, ?_, ?_, ?_⟩
  · rw [show List.range 5 = [0, 1, 2, 3, 4] from by decide]
    simp [chunks]
  · rw [executeDeterministic_eq_map]
    simp
  · intro research duration agents
    exact executeAgents_eq_map research duration L agents
  · intro hnd
    exact batchTrace_nodup (chunks L channels) (by rwa [chunks_flatten])
  · intro m n hm hn hmn i j hi hj
    exact pair_sublist_flatMap groupEvents (chunks L channels) m n hm hn hmn
      (BatchEvent.resolve i) (BatchEvent.start j)
      (mem_groupEvents_resolve.mpr hi) (mem_groupEvents_start.mpr hj)

/-- Witness for C4 at limit 2 over 5 channels: the batching yields sizes
2, 2, 1; the flattened groups reproduce the input; and the runner returns
one result per channel in input order. -/
theorem runBatches_groups_witness :
    ((chunks 2 ["a", "b", "c", "d", "e"]).flatten = ["a", "b", "c", "d", "e"]) ∧
    ((chunks 2 (List.range 5)).map List.length = [2, 2, 1]) ∧
    (executeDeterministicWithConcurrency (fun c => Except.error { message := c }) 2
        ["a", "b", "c", "d", "e"]).length = 5 :=
  ⟨(runBatches_groups_and_order 2 (by omega) ["a", "b", "c", "d", "e"]
      (fun c => Except.error { message := c })).1,
   (runBatches_groups_and_order 2 (by omega) ["a", "b", "c", "d", "e"]
      (fun c => Except.error { message := c })).2.2.1,
   (runBatches_groups_and_order 2 (by omega) ["a", "b", "c", "d", "e"]
      (fun c => Except.error { message := c })).2.2.2.2.1⟩

/-- C3: in every batch run, an item whose operation throws contributes a
result entry with status failed, the canned fallback report and the
recorded error message; each position of the returned list is determined by
that position's item alone, so one item's failure never prevents another
item — in the same or a later group — from executing and reporting its own
status; and the runner is a total function into result lists, so unit-level
errors never escape to the stage level. -/
theorem unit_failure_absorbed (L : Nat) (hL : 1 ≤ L)
    (channels : List String) (op : String → Except JsError AgentResult) :
    (executeDeterministicWithConcurrency op L channels
      = channels.map (runDeterministicItem op)) ∧
    (∀ k : Nat, (executeDeterministicWithConcurrency op L channels)[k]?
      = (channels[k]?).map (runDeterministicItem op)) ∧
    (∀ c e, op c = .error e →
      runDeterministicItem op c =
        { channelId := c, channelName := c, report := generateAgentFallback c,
          duration := 0, status := "failed", method := "deterministic",
          errorMessage := some e.message }) ∧
    (∀ c r, op c = .ok r → runDeterministicItem op c = r) ∧
    (∀ (research : Agent → Except JsError AgentResult) (duration : Nat)
        (a : Agent) (e : JsError), research a = .error e →
      executeAgentWithFallback research duration a = agentFailureResult a duration e ∧
      (executeAgentWithFallback research duration a).status = "failed" ∧
      (executeAgentWithFallback research duration a).report
        = generateAgentFallback a.channelId ∧
      (executeAgentWithFallback research duration a).errorMessage = some e.message) := by
  refine ⟨executeDeterministic_eq_map op L channels, ?_, ?_, ?_, ?_⟩
  · intro k
    rw [executeDeterministic_eq_map, List.getElem?_map]
  · intro c e hop
    simp [runDeterministicItem, hop, deterministicFailureResult]
  · intro c r hop
    simp [runDeterministicItem, hop]
  · intro research duration a e hop
    refine ⟨?_, ?_, ?_, ?_⟩ <;> simp [executeAgentWithFallback, hop, agentFailureResult]

/-- Witness for C3: in a 3-channel batch at limit 2 whose middle channel
throws, the middle entry is the failed fallback record and the flanking
channels report their own successful results. -/
theorem unit_failure_absorbed_witness :
    executeDeterministicWithConcurrency sampleOp 2 ["tech", "finance", "science"]
      = ["tech", "finance", "science"].map (runDeterministicItem sampleOp) ∧
    runDeterministicItem sampleOp "finance"
      = { channelId := "finance"
          channelName := "finance"
          report := generateAgentFallback "finance"
          duration := 0
          status := "failed"
          method := "deterministic"
          errorMessage := some "HTTP 500" } ∧
    runDeterministicItem sampleOp "tech" = sampleOkResult "tech" :=
  ⟨(unit_failure_absorbed 2 (by omega) ["tech", "finance", "science"] sampleOp).1,
   (unit_failure_absorbed 2 (by omega) ["tech", "finance", "science"] sampleOp).2.2.1
     "finance" { message := "HTTP 500", status := some 500 } rfl,
   (unit_failure_absorbed 2 (by omega) ["tech", "finance", "science"] sampleOp).2.2.2.1
     "tech" (sampleOkResult "tech") rfl⟩

/-- A monadic fold over `Except` whose step never throws produces a
value. -/
theorem foldlM_except_ok {β σ : Type} (f : σ → β → Except JsError σ)
    (hf : ∀ acc b, ∃ out, f acc b = Except.ok out) :
    ∀ (l : List β) (acc : σ), ∃ out, l.foldlM f acc = Except.ok out := by
  intro l
  induction l with
  | nil => intro acc; exact ⟨acc, rfl⟩
  | cons b rest ih =>
    intro acc
    obtain ⟨a1, ha1⟩ := hf acc b
    obtain ⟨out, hout⟩ := ih a1
    refine ⟨out, ?_⟩
    rw [List.foldlM_cons, ha1]
    exact hout

/-- Counterexample to C1 as stated: with both completion responses
malformed (`JSON.parse` fails on each, embedded by a parse yielding `none`
on every response), the planner does not throw — it returns the built-in
minimal plan with the raw transcripts joined by the RETRY marker — and the
plan-and-write stage completes, so the pipeline reports terminal success,
not failure and no propagated planning error. -/
theorem planning_failure_counterexample :
    createPlan (fun _ => none) 800 "not json" "still not json"
      = (minimalPlan 800, "not json\n\n--- RETRY ---\n\nstill not json") ∧
    planAndWriteScript (fun _ => none) (fun _ sec _ => Except.ok sec.id) 5
        "not json" "still not json"
      = Except.ok (minimalPlan 800, "intro\n\nmain\n\nclosing") ∧
    pipelineOutcome
        (planAndWriteScript (fun _ => none) (fun _ sec _ => Except.ok sec.id) 5
          "not json" "still not json")
      = "success" := by
  refine ⟨rfl, ?_, ?_⟩ <;> rfl

/-- C1 (amended): if the planning completion producer returns malformed
(non-JSON-parsable) structured output on both the initial attempt and the
single retry, no error propagates out of the planner: `createPlan` falls
back to the built-in minimal plan (sections intro, main, closing) together
with the raw transcripts joined by the RETRY marker, and — provided section
writing succeeds — the plan-and-write stage completes and the pipeline
reports terminal success. -/
theorem planner_double_malformed_falls_back
    (parse : String → Option Plan) (wordsTarget : Nat) (resp retryResp : String)
    (h1 : parse resp = none) (h2 : parse retryResp = none) :
    createPlan parse wordsTarget resp retryResp
      = (minimalPlan wordsTarget, resp ++ "\n\n--- RETRY ---\n\n" ++ retryResp) ∧
    (minimalPlan wordsTarget).sections.map PlanSection.id = ["intro", "main", "closing"] ∧
    (∀ (writeSec : Plan → PlanSection → String → Except JsError String) (duration : Nat),
      (∀ p sec cur, ∃ t, writeSec p sec cur = Except.ok t) →
      ∃ script,
        planAndWriteScript parse writeSec duration resp retryResp
          = Except.ok (minimalPlan (duration * 160), script) ∧
        pipelineOutcome (planAndWriteScript parse writeSec duration resp retryResp)
          = "success") := by
  have hplanAt : ∀ w, createPlan parse w resp retryResp
      = (minimalPlan w, resp ++ "\n\n--- RETRY ---\n\n" ++ retryResp) := by
    intro w
    simp [createPlan, h1, h2]
  refine ⟨hplanAt wordsTarget, rfl, ?_⟩
  intro writeSec duration hw
  have hstep : ∀ (acc : String) (sec : PlanSection),
      ∃ out,
        (do
          let t ← writeSec (minimalPlan (duration * 160)) sec acc
          pure (if acc = "" then t else acc ++ "\n\n" ++ t)
          : Except JsError String) = Except.ok out := by
    intro acc sec
    obtain ⟨t, ht⟩ := hw (minimalPlan (duration * 160)) sec acc
    exact ⟨if acc = "" then t else acc ++ "\n\n" ++ t, by rw [ht]; rfl⟩
  obtain ⟨script, hscript⟩ := foldlM_except_ok
    (fun acc sec => do
      let t ← writeSec (minimalPlan (duration * 160)) sec acc
      pure (if acc = "" then t else acc ++ "\n\n" ++ t))
    hstep (minimalPlan (duration * 160)).sections ""
  have hmain : planAndWriteScript parse writeSec duration resp retryResp
      = Except.ok (minimalPlan (duration * 160), script) := by
    rw [planAndWriteScript, hplanAt (duration * 160)]
    simp only []
    rw [hscript]
    rfl
  exact ⟨script, hmain, by rw [hmain]; rfl⟩

/-- Witness for the amended C1 at duration 5 with concrete malformed
responses and a writer that emits each section's id. -/
theorem planner_fallback_witness :
    ∃ script,
      planAndWriteScript (fun _ => none) (fun _ sec _ => Except.ok sec.id) 5
          "not json" "still not json"
        = Except.ok (minimalPlan (5 * 160), script) ∧
      pipelineOutcome
          (planAndWriteScript (fun _ => none) (fun _ sec _ => Except.ok sec.id) 5
            "not json" "still not json")
        = "success" :=
  (planner_double_malformed_falls_back (fun _ => none) 800 "not json" "still not json"
      rfl rfl).2.2 (fun _ sec _ => Except.ok sec.id) 5 (fun _ sec _ => ⟨sec.id, rfl⟩)

end Podcast
